import Mathlib

/-!
Verification of the CubbyFlow grid-based pressure projection subsystem
(`GridPressureSolver2`), the grid iteration/shape primitives exposed through
`Grid.cpp`, and the `Point2UI`/`Point3UI` bindings from `Point.cpp`.

The repository ships only the abstract interface `GridPressureSolver2.h`
(with its default arguments), the Python bindings, and a manual test; the
concrete solver, grid and point implementations are not part of the sources.
Definitions for those missing parts are therefore modelled from the
specification (each such definition's doc comment starts with
`Modelled from the spec:`); definitions for code that is present (the default
arguments of `Solve`, the pybind11 argument defaults) follow the source.

Real arithmetic is embedded as exact rational arithmetic (ℚ); the iterative
linear solve is modelled as an exact solution of the assembled system, so
"within solver tolerance" statements are established in their exact form
(tolerance zero).
-/

namespace CubbyFlow

/-- 2-D integer grid size (the `resolution`). -/
structure Size2 where
  x : Nat
  y : Nat
deriving DecidableEq

/-- 2-D real vector, embedded over ℚ. -/
structure Vector2D where
  x : ℚ
  y : ℚ
deriving DecidableEq

/-- A 2-D scalar field is its `Sample` function: a value at an arbitrary
world-space point. -/
def ScalarField2 : Type := Vector2D → ℚ

/-- A 2-D vector field is its `Sample` function. -/
def VectorField2 : Type := Vector2D → Vector2D

/-- `ConstantScalarField2 c` samples to `c` everywhere
(`Core/Field/ConstantScalarField2.h`). -/
def ConstantScalarField2 (c : ℚ) : ScalarField2 := fun _ => c

/-- `ConstantVectorField2 v` samples to `v` everywhere
(`Core/Field/ConstantVectorField2.h`). -/
def ConstantVectorField2 (v : Vector2D) : VectorField2 := fun _ => v

/-- `std::numeric_limits<double>::max()` (DBL_MAX), which is the exact
rational (2^53 - 1) * 2^971. -/
def dblMax : ℚ := (2 ^ 53 - 1) * 2 ^ 971

/-- Abstract 2-D grid shape descriptor (`Core/Grid/Grid2.h`): resolution,
origin and grid spacing. -/
structure Grid2 where
  resolution : Size2
  origin : Vector2D
  gridSpacing : Vector2D
deriving DecidableEq

/-- Face-centered (MAC) velocity grid (`Core/Grid/FaceCenteredGrid2.h`):
a grid shape together with the u-component samples at x-faces (valid for
`i ≤ resolution.x`, `j < resolution.y`) and the v-component samples at
y-faces (valid for `i < resolution.x`, `j ≤ resolution.y`). -/
structure FaceCenteredGrid2 where
  resolution : Size2
  origin : Vector2D
  gridSpacing : Vector2D
  uData : Nat → Nat → ℚ
  vData : Nat → Nat → ℚ

/-- Shape descriptor of a face-centered grid. -/
def FaceCenteredGrid2.shape (g : FaceCenteredGrid2) : Grid2 :=
  ⟨g.resolution, g.origin, g.gridSpacing⟩

/-- `Grid2::GetCellCenterPosition`: `origin + gridSpacing * (index + 0.5)`. -/
def cellCenterPosition (g : FaceCenteredGrid2) (i j : Nat) : Vector2D :=
  ⟨g.origin.x + g.gridSpacing.x * ((i : ℚ) + 1/2),
   g.origin.y + g.gridSpacing.y * ((j : ℚ) + 1/2)⟩

/-- Center of the x-face `(i, j)` (between cells `(i-1, j)` and `(i, j)`). -/
def uFacePosition (g : FaceCenteredGrid2) (i j : Nat) : Vector2D :=
  ⟨g.origin.x + g.gridSpacing.x * (i : ℚ),
   g.origin.y + g.gridSpacing.y * ((j : ℚ) + 1/2)⟩

/-- Center of the y-face `(i, j)` (between cells `(i, j-1)` and `(i, j)`). -/
def vFacePosition (g : FaceCenteredGrid2) (i j : Nat) : Vector2D :=
  ⟨g.origin.x + g.gridSpacing.x * ((i : ℚ) + 1/2),
   g.origin.y + g.gridSpacing.y * (j : ℚ)⟩

/-- Per-cell classification used by the pressure solver. -/
inductive Marker where
  | FLUID : Marker
  | AIR : Marker
  | SOLID : Marker
deriving DecidableEq

/-- Everything one `Solve` call reads: the input velocity grid, the time
step, and the three boundary fields (`GridPressureSolver2::Solve`
parameters). -/
structure SolveConfig where
  grid : FaceCenteredGrid2
  dt : ℚ
  boundarySDF : ScalarField2
  boundaryVelocity : VectorField2
  fluidSDF : ScalarField2

/-- Modelled from the spec: the cell classification built fresh in each
`Solve` call (the concrete solver's marker-building pass is not in the
sources).  Per the spec's sign convention, a cell whose boundary-SDF sample
at the cell center is negative is SOLID; otherwise it is FLUID when the
fluid-SDF sample at the cell center is positive, and AIR when that sample is
non-positive. -/
def buildMarker (cfg : SolveConfig) (i j : Nat) : Marker :=
  if cfg.boundarySDF (cellCenterPosition cfg.grid i j) < 0 then Marker.SOLID
  else if 0 < cfg.fluidSDF (cellCenterPosition cfg.grid i j) then Marker.FLUID
  else Marker.AIR

/-- Default boundary SDF of `Solve`
(`ConstantScalarField2(std::numeric_limits<double>::max())`,
GridPressureSolver2.h line 63). -/
def defaultBoundarySDF : ScalarField2 := ConstantScalarField2 dblMax

/-- Default boundary velocity of `Solve` (`ConstantVectorField2({0, 0})`,
GridPressureSolver2.h line 64). -/
def defaultBoundaryVelocity : VectorField2 := ConstantVectorField2 ⟨0, 0⟩

/-- Default fluid SDF of `Solve`
(`ConstantScalarField2(-std::numeric_limits<double>::max())`,
GridPressureSolver2.h line 65). -/
def defaultFluidSDF : ScalarField2 := ConstantScalarField2 (-dblMax)

/-- Modelled from the spec: whether an x-face lies on or inside the solid
region (its boundary-SDF sample at the face center is non-positive).  Such
faces are the ones the boundary condition solver constrains. -/
def solidUFace (cfg : SolveConfig) (i j : Nat) : Prop :=
  cfg.boundarySDF (uFacePosition cfg.grid i j) ≤ 0

/-- Modelled from the spec: whether a y-face lies on or inside the solid
region. -/
def solidVFace (cfg : SolveConfig) (i j : Nat) : Prop :=
  cfg.boundarySDF (vFacePosition cfg.grid i j) ≤ 0

instance (cfg : SolveConfig) (i j : Nat) : Decidable (solidUFace cfg i j) := by
  unfold solidUFace; infer_instance

instance (cfg : SolveConfig) (i j : Nat) : Decidable (solidVFace cfg i j) := by
  unfold solidVFace; infer_instance

/-- Modelled from the spec: the boundary condition solver's
`ConstrainVelocity` pass (step 2 of the reference projection algorithm).
Every face lying on or inside the solid region has its normal velocity
component set to the boundary velocity sampled at the face center, projected
onto the face normal; all other faces keep their values (free-slip default;
the configurable open/closed outer-domain policy is not part of the
modelled configuration). -/
def ConstrainVelocity (cfg : SolveConfig) : FaceCenteredGrid2 :=
  { cfg.grid with
    uData := fun i j =>
      if solidUFace cfg i j then (cfg.boundaryVelocity (uFacePosition cfg.grid i j)).x
      else cfg.grid.uData i j
    vData := fun i j =>
      if solidVFace cfg i j then (cfg.boundaryVelocity (vFacePosition cfg.grid i j)).y
      else cfg.grid.vData i j }

/-- Discrete divergence of a face-centered grid at the center of cell
`(i, j)` (`FaceCenteredGrid2::DivergenceAtCellCenter`):
`(u(i+1,j) - u(i,j)) / hx + (v(i,j+1) - v(i,j)) / hy`. -/
def divergenceAtCellCenter (g : FaceCenteredGrid2) (i j : Nat) : ℚ :=
  (g.uData (i + 1) j - g.uData i j) / g.gridSpacing.x +
  (g.vData i (j + 1) - g.vData i j) / g.gridSpacing.y

/-- Pressure value read at a cell: the unknown at FLUID cells, and zero at
AIR cells (zero-pressure Dirichlet) and SOLID cells (no unknown). -/
def pressureAt (cfg : SolveConfig) (p : Nat → Nat → ℚ) (i j : Nat) : ℚ :=
  if buildMarker cfg i j = Marker.FLUID then p i j else 0

/-- Whether the `+x` stencil direction of cell `(i, j)` is active: the
neighbor `(i+1, j)` is present in the grid, is not SOLID, and the face
between them is not solid-constrained. -/
def activeRight (cfg : SolveConfig) (i j : Nat) : Prop :=
  i + 1 < cfg.grid.resolution.x ∧ buildMarker cfg (i + 1) j ≠ Marker.SOLID ∧
    ¬ solidUFace cfg (i + 1) j

/-- Whether the `-x` stencil direction of cell `(i, j)` is active. -/
def activeLeft (cfg : SolveConfig) (i j : Nat) : Prop :=
  1 ≤ i ∧ buildMarker cfg (i - 1) j ≠ Marker.SOLID ∧ ¬ solidUFace cfg i j

/-- Whether the `+y` stencil direction of cell `(i, j)` is active. -/
def activeUp (cfg : SolveConfig) (i j : Nat) : Prop :=
  j + 1 < cfg.grid.resolution.y ∧ buildMarker cfg i (j + 1) ≠ Marker.SOLID ∧
    ¬ solidVFace cfg i (j + 1)

/-- Whether the `-y` stencil direction of cell `(i, j)` is active. -/
def activeDown (cfg : SolveConfig) (i j : Nat) : Prop :=
  1 ≤ j ∧ buildMarker cfg i (j - 1) ≠ Marker.SOLID ∧ ¬ solidVFace cfg i j

instance (cfg : SolveConfig) (i j : Nat) : Decidable (activeRight cfg i j) := by
  unfold activeRight; infer_instance

instance (cfg : SolveConfig) (i j : Nat) : Decidable (activeLeft cfg i j) := by
  unfold activeLeft; infer_instance

instance (cfg : SolveConfig) (i j : Nat) : Decidable (activeUp cfg i j) := by
  unfold activeUp; infer_instance

instance (cfg : SolveConfig) (i j : Nat) : Decidable (activeDown cfg i j) := by
  unfold activeDown; infer_instance

/-- Modelled from the spec: the row of the discrete pressure Poisson system
at cell `(i, j)`, applied to a pressure assignment `p` (step 4 of the
reference projection algorithm).  Each active FLUID neighbor contributes the
off-diagonal coefficient `1/spacing²` along its axis, the diagonal
accumulates the negative sum of `1/spacing²` over all active directions, and
active AIR neighbors contribute a zero-pressure Dirichlet value; directions
whose neighbor is absent, SOLID, or behind a solid-constrained face are
omitted. -/
def rowApply (cfg : SolveConfig) (p : Nat → Nat → ℚ) (i j : Nat) : ℚ :=
  (if activeRight cfg i j then
     (pressureAt cfg p (i + 1) j - p i j) / cfg.grid.gridSpacing.x ^ 2 else 0) +
  (if activeLeft cfg i j then
     (pressureAt cfg p (i - 1) j - p i j) / cfg.grid.gridSpacing.x ^ 2 else 0) +
  (if activeUp cfg i j then
     (pressureAt cfg p i (j + 1) - p i j) / cfg.grid.gridSpacing.y ^ 2 else 0) +
  (if activeDown cfg i j then
     (pressureAt cfg p i (j - 1) - p i j) / cfg.grid.gridSpacing.y ^ 2 else 0)

/-- Modelled from the spec: `p` is an (exact) solution of the assembled
pressure system — at every FLUID cell the row applied to `p` equals the
discrete divergence of the boundary-constrained velocity at that cell
(step 3 of the reference projection algorithm forms the right-hand side from
that divergence). -/
def SolvesPressureSystem (cfg : SolveConfig) (p : Nat → Nat → ℚ) : Prop :=
  ∀ i, i < cfg.grid.resolution.x → ∀ j, j < cfg.grid.resolution.y →
    buildMarker cfg i j = Marker.FLUID →
    rowApply cfg p i j = divergenceAtCellCenter (ConstrainVelocity cfg) i j

instance (cfg : SolveConfig) (p : Nat → Nat → ℚ) :
    Decidable (SolvesPressureSystem cfg p) := by
  unfold SolvesPressureSystem; infer_instance

/-- The spec's step-6 condition on a face: it separates two FLUID cells or a
FLUID and an AIR cell. -/
def projectable (a b : Marker) : Prop :=
  (a = Marker.FLUID ∧ b = Marker.FLUID) ∨ (a = Marker.FLUID ∧ b = Marker.AIR) ∨
    (a = Marker.AIR ∧ b = Marker.FLUID)

instance (a b : Marker) : Decidable (projectable a b) := by
  unfold projectable; infer_instance

/-- Pressure-gradient correction applied to the x-face `(i, j)` (between
cells `(i-1, j)` and `(i, j)`): nonzero only for an interior face separating
FLUID/FLUID or FLUID/AIR cells that is not solid-constrained. -/
def uCorrection (cfg : SolveConfig) (p : Nat → Nat → ℚ) (i j : Nat) : ℚ :=
  if 1 ≤ i ∧ i < cfg.grid.resolution.x ∧ j < cfg.grid.resolution.y ∧
      ¬ solidUFace cfg i j ∧ projectable (buildMarker cfg (i - 1) j) (buildMarker cfg i j)
  then (pressureAt cfg p i j - pressureAt cfg p (i - 1) j) / cfg.grid.gridSpacing.x
  else 0

/-- Pressure-gradient correction applied to the y-face `(i, j)`. -/
def vCorrection (cfg : SolveConfig) (p : Nat → Nat → ℚ) (i j : Nat) : ℚ :=
  if 1 ≤ j ∧ j < cfg.grid.resolution.y ∧ i < cfg.grid.resolution.x ∧
      ¬ solidVFace cfg i j ∧ projectable (buildMarker cfg i (j - 1)) (buildMarker cfg i j)
  then (pressureAt cfg p i j - pressureAt cfg p i (j - 1)) / cfg.grid.gridSpacing.y
  else 0

/-- Modelled from the spec: step 6 of the reference projection algorithm —
for every face separating two FLUID cells or a FLUID and an AIR cell,
subtract the pressure gradient across the face (scaled by the inverse
spacing) from the face velocity; faces already constrained to SOLID remain
untouched. -/
def applyPressureGradient (cfg : SolveConfig) (p : Nat → Nat → ℚ) : FaceCenteredGrid2 :=
  { ConstrainVelocity cfg with
    uData := fun i j => (ConstrainVelocity cfg).uData i j - uCorrection cfg p i j
    vData := fun i j => (ConstrainVelocity cfg).vData i j - vCorrection cfg p i j }

/-- Modelled from the spec: `GridPressureSolver2::Solve` on well-formed
inputs, with the iterative linear solve abstracted into the pressure
assignment `p` (constrained by `SolvesPressureSystem` in the theorems):
copy the input, constrain it against the solid boundary, then apply the
pressure-gradient correction. -/
def Solve (cfg : SolveConfig) (p : Nat → Nat → ℚ) : FaceCenteredGrid2 :=
  applyPressureGradient cfg p

/-- The configuration produced by calling `Solve` without explicit
`boundarySDF`, `boundaryVelocity` and `fluidSDF` arguments
(GridPressureSolver2.h lines 63-65). -/
def defaultConfig (g : FaceCenteredGrid2) (dt : ℚ) : SolveConfig :=
  ⟨g, dt, defaultBoundarySDF, defaultBoundaryVelocity, defaultFluidSDF⟩

/-- `Solve` with the header's default field arguments. -/
def SolveDefault (input : FaceCenteredGrid2) (dt : ℚ) (p : Nat → Nat → ℚ) :
    FaceCenteredGrid2 :=
  Solve (defaultConfig input dt) p

-- Concrete instances used by witnesses and counterexamples.

/-- A 1×1 unit grid with zero velocities. -/
def unitGrid : FaceCenteredGrid2 :=
  ⟨⟨1, 1⟩, ⟨0, 0⟩, ⟨1, 1⟩, fun _ _ => 0, fun _ _ => 0⟩

/-- Configuration with no solid and positive fluid SDF everywhere. -/
def cfgAllFluid : SolveConfig :=
  ⟨unitGrid, 1, ConstantScalarField2 1, ConstantVectorField2 ⟨0, 0⟩,
   ConstantScalarField2 1⟩

/-- A 2×1 grid whose only nonzero face velocity is the interior x-face. -/
def gridTwoByOne : FaceCenteredGrid2 :=
  ⟨⟨2, 1⟩, ⟨0, 0⟩, ⟨1, 1⟩,
   fun i j => if i = 1 ∧ j = 0 then 1 else 0, fun _ _ => 0⟩

/-- Configuration on `gridTwoByOne` with no solid and a fluid SDF making
cell `(0,0)` FLUID and cell `(1,0)` AIR. -/
def cfgProjW : SolveConfig :=
  ⟨gridTwoByOne, 1, ConstantScalarField2 1, ConstantVectorField2 ⟨0, 0⟩,
   fun pos => 1 - pos.x⟩

/-- Exact pressure solution for `cfgProjW`. -/
def pProjW : Nat → Nat → ℚ := fun i j => if i = 0 ∧ j = 0 then -1 else 0

/-- The all-zero pressure assignment. -/
def pZero : Nat → Nat → ℚ := fun _ _ => 0

/-- A 1×1 unit grid whose face velocities are all 5. -/
def gridOneFive : FaceCenteredGrid2 :=
  ⟨⟨1, 1⟩, ⟨0, 0⟩, ⟨1, 1⟩, fun _ _ => 5, fun _ _ => 5⟩

/-- Configuration that is solid everywhere and has no fluid anywhere. -/
def cfgNoFluid : SolveConfig :=
  ⟨gridOneFive, 1, ConstantScalarField2 (-1), ConstantVectorField2 ⟨0, 0⟩,
   ConstantScalarField2 (-1)⟩

/-- `Grid2::HasSameShape` (bound in `Grid.cpp`; per its documentation it
returns true if resolution, grid-spacing and origin are the same). -/
def HasSameShape (a b : Grid2) : Bool :=
  decide (a.resolution = b.resolution) && decide (a.gridSpacing = b.gridSpacing) &&
    decide (a.origin = b.origin)

/-- Modelled from the spec: the precondition check `Solve` performs before
any computation — output shape matches the input shape, the time step is
positive, and the grid spacing components are positive. -/
def ValidSolveInput (cfg : SolveConfig) (out0 : FaceCenteredGrid2) : Prop :=
  HasSameShape cfg.grid.shape out0.shape = true ∧ 0 < cfg.dt ∧
    0 < cfg.grid.gridSpacing.x ∧ 0 < cfg.grid.gridSpacing.y

instance (cfg : SolveConfig) (out0 : FaceCenteredGrid2) :
    Decidable (ValidSolveInput cfg out0) := by
  unfold ValidSolveInput; infer_instance

/-- Modelled from the spec: one `Solve` call writing into a caller-supplied
output grid `out0`.  Precondition violations are detected before any
computation: the call reports failure and returns the output grid
unmodified; otherwise the projected velocity grid is returned with a
success flag. -/
def SolveInPlace (cfg : SolveConfig) (out0 : FaceCenteredGrid2)
    (p : Nat → Nat → ℚ) : FaceCenteredGrid2 × Bool :=
  if ValidSolveInput cfg out0 then (Solve cfg p, true) else (out0, false)

/-- Modelled from the spec: a heap of grid objects addressed by references,
over which `Solve(input, dt, &output, ...)` acts — it reads the grids at
`inRef` and `outRef` and writes only the grid at `outRef`; the boundary
fields are read-only values for the duration of the call. -/
def solveHeap (heap : Nat → FaceCenteredGrid2) (inRef outRef : Nat) (dt : ℚ)
    (bsdf : ScalarField2) (bv : VectorField2) (fsdf : ScalarField2)
    (p : Nat → Nat → ℚ) : Nat → FaceCenteredGrid2 :=
  Function.update heap outRef
    (SolveInPlace ⟨heap inRef, dt, bsdf, bv, fsdf⟩ (heap outRef) p).1

/-- A second heap instance used by the frame-property witness. -/
def heapW : Nat → FaceCenteredGrid2 := fun n => if n = 0 then unitGrid else gridTwoByOne

/-- 3-D integer grid size. -/
structure Size3 where
  x : Nat
  y : Nat
  z : Nat
deriving DecidableEq

/-- The sequence of cell indices of a 2-D grid in the traversal order of
`Grid2::ForEachCellIndex`: the `i` index varies fastest, `j` slowest. -/
def cellIndexList (nx ny : Nat) : List (Nat × Nat) :=
  (List.range ny).flatMap (fun j => (List.range nx).map (fun i => (i, j)))

/-- Modelled from the spec: `Grid2::ForEachCellIndex` (its body is not in
the sources; the binding's documentation specifies a serial invocation per
grid cell with execution order i-first, j-last).  The caller-supplied
callback is modelled with an accumulator so the observation order is
meaningful: two nested loops, `j` outer, `i` inner. -/
def ForEachCellIndex {σ : Type} (res : Size2) (f : σ → Nat × Nat → σ)
    (init : σ) : σ :=
  List.foldl (fun s j => List.foldl (fun t i => f t (i, j)) s (List.range res.x))
    init (List.range res.y)

/-- The sequence of cell indices of a 3-D grid in the traversal order of
`Grid3::ForEachCellIndex`: `i` fastest, `k` slowest. -/
def cellIndexList3 (nx ny nz : Nat) : List (Nat × Nat × Nat) :=
  (List.range nz).flatMap (fun k =>
    (List.range ny).flatMap (fun j => (List.range nx).map (fun i => (i, j, k))))

/-- Modelled from the spec: `Grid3::ForEachCellIndex` — serial invocation
per cell, execution order i-first, k-last: three nested loops, `k` outer,
`j` middle, `i` inner. -/
def ForEachCellIndex3 {σ : Type} (res : Size3) (f : σ → Nat × Nat × Nat → σ)
    (init : σ) : σ :=
  List.foldl (fun s k =>
      List.foldl (fun t j =>
          List.foldl (fun w i => f w (i, j, k)) t (List.range res.x))
        s (List.range res.y))
    init (List.range res.z)

/-- `Point2UI` (`Core/Point/Point2.h`): a 2-D point of unsigned integers. -/
structure Point2UI where
  x : Nat
  y : Nat
deriving DecidableEq

/-- `Point3UI`: a 3-D point of unsigned integers. -/
structure Point3UI where
  x : Nat
  y : Nat
  z : Nat
deriving DecidableEq

/-- The Python constructor of `Point2UI` bound in `Point.cpp`: arguments
`x` and `y` both default to 0 when omitted, and the point is constructed
from them (`new (&instance) Point2UI(x, y)`). -/
def point2UIInit (ox oy : Option Nat) : Point2UI :=
  ⟨ox.getD 0, oy.getD 0⟩

/-- The Python constructor of `Point3UI` bound in `Point.cpp`: `x`, `y`,
`z` default to 0. -/
def point3UIInit (ox oy oz : Option Nat) : Point3UI :=
  ⟨ox.getD 0, oy.getD 0, oz.getD 0⟩

/-- A Python object acceptable as the right-hand side of the bound
equality operators: a point of the matching type or a sequence of
coordinates. -/
inductive PyPointLike2 where
  | point : Point2UI → PyPointLike2
  | seq : Nat → Nat → PyPointLike2

/-- A Python object convertible to `Point3UI`. -/
inductive PyPointLike3 where
  | point : Point3UI → PyPointLike3
  | seq : Nat → Nat → Nat → PyPointLike3

/-- Modelled from the spec: `ObjectToPoint2UI` (pybind11Utils.h, absent
from the sources) — converts the Python object to a `Point2UI`, reading a
sequence's entries as the coordinates. -/
def ObjectToPoint2UI : PyPointLike2 → Point2UI
  | PyPointLike2.point q => q
  | PyPointLike2.seq a b => ⟨a, b⟩

/-- Modelled from the spec: `ObjectToPoint3UI`. -/
def ObjectToPoint3UI : PyPointLike3 → Point3UI
  | PyPointLike3.point q => q
  | PyPointLike3.seq a b c => ⟨a, b, c⟩

/-- The bound `Point2UI.__eq__`: converts the right-hand object to a point
and compares with `operator==`. -/
def point2UIEqPy (a : Point2UI) (obj : PyPointLike2) : Bool :=
  decide (a = ObjectToPoint2UI obj)

/-- The bound `Point3UI.__eq__`. -/
def point3UIEqPy (a : Point3UI) (obj : PyPointLike3) : Bool :=
  decide (a = ObjectToPoint3UI obj)

/-- Modelled from the spec: the FLUID cells of the grid in traversal
order — the cells the compressed linear-system representation renumbers
(the dense representation is addressed by full grid coordinates). -/
def fluidIndices (cfg : SolveConfig) : List (Nat × Nat) :=
  (cellIndexList cfg.grid.resolution.x cfg.grid.resolution.y).filter
    (fun c => decide (buildMarker cfg c.1 c.2 = Marker.FLUID))

/-- The compressed renumbering: the position of a cell in a list of
renumbered cells, if present. -/
def compressedIndex : List (Nat × Nat) → Nat × Nat → Option Nat
  | [], _ => none
  | d :: l, c => if d = c then some 0 else (compressedIndex l c).map (· + 1)

/-- Reading a cell's pressure out of a compressed solution vector `x`:
the entry at the cell's renumbered position, and 0 for cells that are not
renumbered (no unknown). -/
def compressedLookup (cfg : SolveConfig) (x : List ℚ) (c : Nat × Nat) : ℚ :=
  match compressedIndex (fluidIndices cfg) c with
  | some k => x.getD k 0
  | none => 0

/-- Modelled from the spec: `x` is an exact solution of the compressed
linear system — one row per renumbered FLUID cell, each row being the
pressure-Poisson row of that cell read through the compressed lookup, with
the same right-hand side as the dense system. -/
def SolvesCompressed (cfg : SolveConfig) (x : List ℚ) : Prop :=
  x.length = (fluidIndices cfg).length ∧
  ∀ n, (hn : n < (fluidIndices cfg).length) →
    rowApply cfg (fun i j => compressedLookup cfg x (i, j))
        ((fluidIndices cfg).get ⟨n, hn⟩).1 ((fluidIndices cfg).get ⟨n, hn⟩).2 =
      divergenceAtCellCenter (ConstrainVelocity cfg)
        ((fluidIndices cfg).get ⟨n, hn⟩).1 ((fluidIndices cfg).get ⟨n, hn⟩).2

end CubbyFlow

namespace CubbyFlow

theorem projectable_fluid_left (b : Marker) :
    projectable Marker.FLUID b ↔ b ≠ Marker.SOLID := by
  cases b <;> decide

theorem projectable_fluid_right (a : Marker) :
    projectable a Marker.FLUID ↔ a ≠ Marker.SOLID := by
  cases a <;> decide

theorem pressureAt_fluid (cfg : SolveConfig) (p : Nat → Nat → ℚ) (i j : Nat)
    (hf : buildMarker cfg i j = Marker.FLUID) : pressureAt cfg p i j = p i j := by
  rw [pressureAt, if_pos hf]

theorem uCorrection_right_div (cfg : SolveConfig) (p : Nat → Nat → ℚ) (i j : Nat)
    (hj : j < cfg.grid.resolution.y) (hf : buildMarker cfg i j = Marker.FLUID) :
    uCorrection cfg p (i + 1) j / cfg.grid.gridSpacing.x =
      (if activeRight cfg i j then
        (pressureAt cfg p (i + 1) j - p i j) / cfg.grid.gridSpacing.x ^ 2 else 0) := by
  rw [uCorrection]
  simp only [Nat.add_sub_cancel]
  by_cases h : activeRight cfg i j
  · unfold activeRight at h
    obtain ⟨h1, h2, h3⟩ := h
    have hpr : projectable (buildMarker cfg i j) (buildMarker cfg (i + 1) j) := by
      rw [hf]
      exact (projectable_fluid_left (buildMarker cfg (i + 1) j)).mpr h2
    rw [if_pos ⟨Nat.le_add_left 1 i, h1, hj, h3, hpr⟩, if_pos ⟨h1, h2, h3⟩,
      pressureAt_fluid cfg p i j hf, div_div, ← sq]
  · rw [if_neg h, if_neg]
    · exact zero_div _
    · intro hg
      have hpr := hg.2.2.2.2
      rw [hf] at hpr
      exact h ⟨hg.2.1, (projectable_fluid_left _).mp hpr, hg.2.2.2.1⟩

theorem uCorrection_left_div (cfg : SolveConfig) (p : Nat → Nat → ℚ) (i j : Nat)
    (hi : i < cfg.grid.resolution.x) (hj : j < cfg.grid.resolution.y)
    (hf : buildMarker cfg i j = Marker.FLUID) :
    uCorrection cfg p i j / cfg.grid.gridSpacing.x =
      -(if activeLeft cfg i j then
        (pressureAt cfg p (i - 1) j - p i j) / cfg.grid.gridSpacing.x ^ 2 else 0) := by
  rw [uCorrection]
  by_cases h : activeLeft cfg i j
  · unfold activeLeft at h
    obtain ⟨h1, h2, h3⟩ := h
    have hpr : projectable (buildMarker cfg (i - 1) j) (buildMarker cfg i j) := by
      rw [hf]
      exact (projectable_fluid_right (buildMarker cfg (i - 1) j)).mpr h2
    rw [if_pos ⟨h1, hi, hj, h3, hpr⟩, if_pos ⟨h1, h2, h3⟩,
      pressureAt_fluid cfg p i j hf, div_div, ← sq]
    ring
  · rw [if_neg h, if_neg, zero_div, neg_zero]
    intro hg
    have hpr := hg.2.2.2.2
    rw [hf] at hpr
    exact h ⟨hg.1, (projectable_fluid_right _).mp hpr, hg.2.2.2.1⟩

theorem vCorrection_up_div (cfg : SolveConfig) (p : Nat → Nat → ℚ) (i j : Nat)
    (hi : i < cfg.grid.resolution.x) (hf : buildMarker cfg i j = Marker.FLUID) :
    vCorrection cfg p i (j + 1) / cfg.grid.gridSpacing.y =
      (if activeUp cfg i j then
        (pressureAt cfg p i (j + 1) - p i j) / cfg.grid.gridSpacing.y ^ 2 else 0) := by
  rw [vCorrection]
  simp only [Nat.add_sub_cancel]
  by_cases h : activeUp cfg i j
  · unfold activeUp at h
    obtain ⟨h1, h2, h3⟩ := h
    have hpr : projectable (buildMarker cfg i j) (buildMarker cfg i (j + 1)) := by
      rw [hf]
      exact (projectable_fluid_left (buildMarker cfg i (j + 1))).mpr h2
    rw [if_pos ⟨Nat.le_add_left 1 j, h1, hi, h3, hpr⟩, if_pos ⟨h1, h2, h3⟩,
      pressureAt_fluid cfg p i j hf, div_div, ← sq]
  · rw [if_neg h, if_neg]
    · exact zero_div _
    · intro hg
      have hpr := hg.2.2.2.2
      rw [hf] at hpr
      exact h ⟨hg.2.1, (projectable_fluid_left _).mp hpr, hg.2.2.2.1⟩

theorem vCorrection_down_div (cfg : SolveConfig) (p : Nat → Nat → ℚ) (i j : Nat)
    (hi : i < cfg.grid.resolution.x) (hj : j < cfg.grid.resolution.y)
    (hf : buildMarker cfg i j = Marker.FLUID) :
    vCorrection cfg p i j / cfg.grid.gridSpacing.y =
      -(if activeDown cfg i j then
        (pressureAt cfg p i (j - 1) - p i j) / cfg.grid.gridSpacing.y ^ 2 else 0) := by
  rw [vCorrection]
  by_cases h : activeDown cfg i j
  · unfold activeDown at h
    obtain ⟨h1, h2, h3⟩ := h
    have hpr : projectable (buildMarker cfg i (j - 1)) (buildMarker cfg i j) := by
      rw [hf]
      exact (projectable_fluid_right (buildMarker cfg i (j - 1))).mpr h2
    rw [if_pos ⟨h1, hj, hi, h3, hpr⟩, if_pos ⟨h1, h2, h3⟩,
      pressureAt_fluid cfg p i j hf, div_div, ← sq]
    ring
  · rw [if_neg h, if_neg, zero_div, neg_zero]
    intro hg
    have hpr := hg.2.2.2.2
    rw [hf] at hpr
    exact h ⟨hg.1, (projectable_fluid_right _).mp hpr, hg.2.2.2.1⟩

/-- C1: on a well-formed input (positive dt, exact solution `p` of the
assembled pressure system), `Solve` produces face velocities whose discrete
divergence at every FLUID cell is exactly zero, and every solid-constrained
face still carries the boundary velocity's normal component (the
no-penetration constraint established by the boundary condition solver). -/
theorem solve_divergence_free_and_no_penetration (cfg : SolveConfig)
    (p : Nat → Nat → ℚ) (hdt : 0 < cfg.dt) (hp : SolvesPressureSystem cfg p) :
    (∀ i, i < cfg.grid.resolution.x → ∀ j, j < cfg.grid.resolution.y →
      buildMarker cfg i j = Marker.FLUID →
      divergenceAtCellCenter (Solve cfg p) i j = 0) ∧
    (∀ i j, solidUFace cfg i j →
      (Solve cfg p).uData i j =
        (cfg.boundaryVelocity (uFacePosition cfg.grid i j)).x) ∧
    (∀ i j, solidVFace cfg i j →
      (Solve cfg p).vData i j =
        (cfg.boundaryVelocity (vFacePosition cfg.grid i j)).y) := by
  refine ⟨?_, ?_, ?_⟩
  · intro i hi j hj hf
    have hrow := hp i hi j hj hf
    rw [rowApply, divergenceAtCellCenter] at hrow
    have hu1 : (Solve cfg p).uData (i + 1) j =
        (ConstrainVelocity cfg).uData (i + 1) j - uCorrection cfg p (i + 1) j := rfl
    have hu0 : (Solve cfg p).uData i j =
        (ConstrainVelocity cfg).uData i j - uCorrection cfg p i j := rfl
    have hv1 : (Solve cfg p).vData i (j + 1) =
        (ConstrainVelocity cfg).vData i (j + 1) - vCorrection cfg p i (j + 1) := rfl
    have hv0 : (Solve cfg p).vData i j =
        (ConstrainVelocity cfg).vData i j - vCorrection cfg p i j := rfl
    have hgs : (Solve cfg p).gridSpacing = cfg.grid.gridSpacing := rfl
    have hgs2 : (ConstrainVelocity cfg).gridSpacing = cfg.grid.gridSpacing := rfl
    rw [divergenceAtCellCenter, hgs, hu1, hu0, hv1, hv0]
    rw [hgs2] at hrow
    have expand :
        ((ConstrainVelocity cfg).uData (i + 1) j - uCorrection cfg p (i + 1) j -
            ((ConstrainVelocity cfg).uData i j - uCorrection cfg p i j)) /
              cfg.grid.gridSpacing.x +
          ((ConstrainVelocity cfg).vData i (j + 1) - vCorrection cfg p i (j + 1) -
            ((ConstrainVelocity cfg).vData i j - vCorrection cfg p i j)) /
              cfg.grid.gridSpacing.y =
        (((ConstrainVelocity cfg).uData (i + 1) j - (ConstrainVelocity cfg).uData i j) /
            cfg.grid.gridSpacing.x +
          ((ConstrainVelocity cfg).vData i (j + 1) - (ConstrainVelocity cfg).vData i j) /
            cfg.grid.gridSpacing.y) -
        (uCorrection cfg p (i + 1) j / cfg.grid.gridSpacing.x -
          uCorrection cfg p i j / cfg.grid.gridSpacing.x +
          vCorrection cfg p i (j + 1) / cfg.grid.gridSpacing.y -
          vCorrection cfg p i j / cfg.grid.gridSpacing.y) := by
      ring
    rw [expand, uCorrection_right_div cfg p i j hj hf,
      uCorrection_left_div cfg p i j hi hj hf, vCorrection_up_div cfg p i j hi hf,
      vCorrection_down_div cfg p i j hi hj hf]
    linarith [hrow]
  · intro i j hs
    have hval : (ConstrainVelocity cfg).uData i j =
        if solidUFace cfg i j then (cfg.boundaryVelocity (uFacePosition cfg.grid i j)).x
        else cfg.grid.uData i j := rfl
    have hout : (Solve cfg p).uData i j =
        (ConstrainVelocity cfg).uData i j - uCorrection cfg p i j := rfl
    rw [hout, uCorrection, if_neg, sub_zero, hval, if_pos hs]
    intro hg
    exact hg.2.2.2.1 hs
  · intro i j hs
    have hval : (ConstrainVelocity cfg).vData i j =
        if solidVFace cfg i j then (cfg.boundaryVelocity (vFacePosition cfg.grid i j)).y
        else cfg.grid.vData i j := rfl
    have hout : (Solve cfg p).vData i j =
        (ConstrainVelocity cfg).vData i j - vCorrection cfg p i j := rfl
    rw [hout, vCorrection, if_neg, sub_zero, hval, if_pos hs]
    intro hg
    exact hg.2.2.2.1 hs

/-- Closed instance of `solve_divergence_free_and_no_penetration`: on the
2×1 FLUID/AIR configuration with exact pressure `pProjW`, the divergence at
the FLUID cell `(0, 0)` of the projected velocity is zero. -/
theorem cfgProjW_marker_fluid : buildMarker cfgProjW 0 0 = Marker.FLUID := by
  norm_num [buildMarker, cfgProjW, gridTwoByOne, cellCenterPosition,
    ConstantScalarField2]

theorem cfgProjW_marker_air : buildMarker cfgProjW 1 0 = Marker.AIR := by
  norm_num [buildMarker, cfgProjW, gridTwoByOne, cellCenterPosition,
    ConstantScalarField2]

theorem cfgProjW_system : SolvesPressureSystem cfgProjW pProjW := by
  intro i hi j hj hf
  have hj0 : j = 0 := by
    have hy : cfgProjW.grid.resolution.y = 1 := rfl
    omega
  have hi2 : i < 2 := by
    have hx : cfgProjW.grid.resolution.x = 2 := rfl
    omega
  subst hj0
  match i, hi2 with
  | 0, _ =>
    norm_num [rowApply, activeRight, activeLeft, activeUp, activeDown,
      solidUFace, solidVFace, pressureAt, buildMarker, cfgProjW, gridTwoByOne,
      cellCenterPosition, uFacePosition, vFacePosition, ConstantScalarField2,
      divergenceAtCellCenter, ConstrainVelocity, pProjW]
    decide
  | 1, _ =>
    rw [cfgProjW_marker_air] at hf
    exact absurd hf (by simp)

theorem solve_divergence_free_witness :
    (0 : ℚ) < cfgProjW.dt ∧ SolvesPressureSystem cfgProjW pProjW ∧
      divergenceAtCellCenter (Solve cfgProjW pProjW) 0 0 = 0 := by
  have hdt : (0 : ℚ) < cfgProjW.dt := by norm_num [cfgProjW]
  exact ⟨hdt, cfgProjW_system,
    (solve_divergence_free_and_no_penetration cfgProjW pProjW hdt
        cfgProjW_system).1
      0 (by norm_num [cfgProjW, gridTwoByOne]) 0
      (by norm_num [cfgProjW, gridTwoByOne]) cfgProjW_marker_fluid⟩

/-- C2: during one `Solve` call a cell is classified SOLID exactly when the
boundary SDF sampled at its center is negative; a non-SOLID cell is FLUID
exactly when the fluid SDF sampled at its center is positive and AIR exactly
when that sample is non-positive. -/
theorem solve_cell_classification (cfg : SolveConfig) (i j : Nat) :
    (buildMarker cfg i j = Marker.SOLID ↔
      cfg.boundarySDF (cellCenterPosition cfg.grid i j) < 0) ∧
    (buildMarker cfg i j ≠ Marker.SOLID →
      ((buildMarker cfg i j = Marker.FLUID ↔
          0 < cfg.fluidSDF (cellCenterPosition cfg.grid i j)) ∧
       (buildMarker cfg i j = Marker.AIR ↔
          cfg.fluidSDF (cellCenterPosition cfg.grid i j) ≤ 0))) := by
  unfold buildMarker
  split_ifs with h1 h2
  · simp [h1]
  · simp [h1, h2, not_le.mpr h2]
  · simp [h1, h2, le_of_not_lt h2]

/-- Closed instance of `solve_cell_classification`: with positive boundary
and fluid SDF samples the cell `(0, 0)` is not SOLID and is FLUID. -/
theorem solve_cell_classification_witness :
    buildMarker cfgAllFluid 0 0 ≠ Marker.SOLID ∧
      buildMarker cfgAllFluid 0 0 = Marker.FLUID :=
  ⟨by decide,
   ((solve_cell_classification cfgAllFluid 0 0).2 (by decide)).1.mpr (by decide)⟩

/-- C3 counterexample: the default boundary SDF is not the constant field
`+∞` — its value at the origin, `dblMax`, is exceeded by `dblMax + 1` — and
with the default fluid SDF (constant `-dblMax`) the cell `(0, 0)` of a 1×1
grid is not classified FLUID, so the default fields do not make the domain
fully fluid. -/
theorem solve_default_arguments_counterexample :
    (¬ ∀ x : ℚ, x ≤ defaultBoundarySDF ⟨0, 0⟩) ∧
      buildMarker (defaultConfig unitGrid 1) 0 0 ≠ Marker.FLUID := by
  have hm : (0 : ℚ) < dblMax := by norm_num [dblMax]
  constructor
  · intro h
    have h1 := h (defaultBoundarySDF ⟨0, 0⟩ + 1)
    have h2 : defaultBoundarySDF ⟨0, 0⟩ = dblMax := rfl
    linarith
  · simp only [buildMarker, defaultConfig, defaultBoundarySDF, defaultFluidSDF,
      ConstantScalarField2]
    rw [if_neg (by linarith), if_neg (by linarith)]
    decide

/-- C3 (amended): the default boundary SDF is the constant field with value
`dblMax = (2^53 - 1) * 2^971` (the largest finite double, positive — so no
point is classified solid), the default fluid SDF is the constant field
`-dblMax` (negative — so under the spec's sign convention every non-solid
cell is classified AIR, not FLUID), and the default boundary velocity is the
constant zero vector field. -/
theorem solve_default_arguments :
    defaultBoundarySDF = ConstantScalarField2 dblMax ∧
    dblMax = (2 ^ 53 - 1) * 2 ^ 971 ∧ 0 < dblMax ∧
    defaultFluidSDF = ConstantScalarField2 (-dblMax) ∧
    defaultBoundaryVelocity = ConstantVectorField2 ⟨0, 0⟩ ∧
    (∀ g dt p, SolveDefault g dt p = Solve (defaultConfig g dt) p) ∧
    (∀ g dt i j, buildMarker (defaultConfig g dt) i j = Marker.AIR ∧
      buildMarker (defaultConfig g dt) i j ≠ Marker.SOLID) := by
  have hm : (0 : ℚ) < dblMax := by norm_num [dblMax]
  have hmk : ∀ g dt i j, buildMarker (defaultConfig g dt) i j = Marker.AIR := by
    intro g dt i j
    simp only [buildMarker, defaultConfig, defaultBoundarySDF, defaultFluidSDF,
      ConstantScalarField2]
    rw [if_neg (by linarith), if_neg (by linarith)]
  refine ⟨rfl, rfl, hm, rfl, rfl, fun g dt p => rfl, fun g dt i j => ?_⟩
  refine ⟨hmk g dt i j, ?_⟩
  rw [hmk g dt i j]
  decide

/-- Closed instance of `solve_default_arguments`: on the 1×1 unit grid the
default fields classify cell `(0, 0)` as AIR. -/
theorem solve_default_arguments_witness :
    buildMarker (defaultConfig unitGrid 1) 0 0 = Marker.AIR :=
  (solve_default_arguments.2.2.2.2.2.2 unitGrid 1 0 0).1

/-- C4 counterexample: with a fluid SDF that is constant `-1` (negative
everywhere, so no cell is FLUID) but a solid boundary, the output of `Solve`
differs from the input — the solid x-face `(0, 0)` is constrained from 5 to
the boundary velocity 0 — so the output does not equal the input unchanged. -/
theorem solve_no_fluid_counterexample :
    cfgNoFluid.fluidSDF = ConstantScalarField2 (-1) ∧ (-1 : ℚ) < 0 ∧
      cfgNoFluid.grid.uData 0 0 = 5 ∧ (Solve cfgNoFluid pZero).uData 0 0 = 0 := by
  refine ⟨rfl, by norm_num, rfl, ?_⟩
  have hout : (Solve cfgNoFluid pZero).uData 0 0 =
      (ConstrainVelocity cfgNoFluid).uData 0 0 - uCorrection cfgNoFluid pZero 0 0 := rfl
  have hsolid : solidUFace cfgNoFluid 0 0 := by
    show cfgNoFluid.boundarySDF (uFacePosition cfgNoFluid.grid 0 0) ≤ 0
    norm_num [cfgNoFluid, ConstantScalarField2]
  have hite : (ConstrainVelocity cfgNoFluid).uData 0 0 =
      (if solidUFace cfgNoFluid 0 0 then
        (cfgNoFluid.boundaryVelocity (uFacePosition cfgNoFluid.grid 0 0)).x
      else cfgNoFluid.grid.uData 0 0) := rfl
  have hcon : (ConstrainVelocity cfgNoFluid).uData 0 0 =
      (cfgNoFluid.boundaryVelocity (uFacePosition cfgNoFluid.grid 0 0)).x := by
    rw [hite, if_pos hsolid]
  have hcor : uCorrection cfgNoFluid pZero 0 0 = 0 := by
    rw [uCorrection, if_neg]
    intro hg
    exact hg.2.2.2.1 hsolid
  rw [hout, hcon, hcor]
  norm_num [cfgNoFluid, ConstantVectorField2]

/-- C4 (amended): if the fluid SDF is a constant negative field (so that no
cell is FLUID), `Solve` does not fail and its output equals the
boundary-constrained input velocity on every face — equivalently, the
pressure-projection step changes nothing; the output equals the input
unchanged exactly when the boundary constraint pass also left it
untouched. -/
theorem solve_no_fluid_returns_constrained_input (cfg : SolveConfig)
    (p : Nat → Nat → ℚ) (c : ℚ) (hsdf : cfg.fluidSDF = ConstantScalarField2 c)
    (hc : c < 0) :
    (∀ i j, (Solve cfg p).uData i j = (ConstrainVelocity cfg).uData i j) ∧
    (∀ i j, (Solve cfg p).vData i j = (ConstrainVelocity cfg).vData i j) := by
  have hnf : ∀ i j, buildMarker cfg i j ≠ Marker.FLUID := by
    intro i j
    unfold buildMarker
    split_ifs with h1 h2
    · simp
    · exfalso
      rw [hsdf] at h2
      have h3 : ConstantScalarField2 c (cellCenterPosition cfg.grid i j) = c := rfl
      rw [h3] at h2
      linarith
    · simp
  have hucor : ∀ i j, uCorrection cfg p i j = 0 := by
    intro i j
    rw [uCorrection, if_neg]
    intro hg
    rcases hg.2.2.2.2 with ⟨ha, hb⟩ | ⟨ha, hb⟩ | ⟨ha, hb⟩
    · exact hnf i j hb
    · exact hnf (i - 1) j ha
    · exact hnf i j hb
  have hvcor : ∀ i j, vCorrection cfg p i j = 0 := by
    intro i j
    rw [vCorrection, if_neg]
    intro hg
    rcases hg.2.2.2.2 with ⟨ha, hb⟩ | ⟨ha, hb⟩ | ⟨ha, hb⟩
    · exact hnf i j hb
    · exact hnf i (j - 1) ha
    · exact hnf i j hb
  constructor
  · intro i j
    have hout : (Solve cfg p).uData i j =
        (ConstrainVelocity cfg).uData i j - uCorrection cfg p i j := rfl
    rw [hout, hucor i j, sub_zero]
  · intro i j
    have hout : (Solve cfg p).vData i j =
        (ConstrainVelocity cfg).vData i j - vCorrection cfg p i j := rfl
    rw [hout, hvcor i j, sub_zero]

/-- Closed instance of `solve_no_fluid_returns_constrained_input` on the
fully solid, fluid-free configuration. -/
theorem solve_no_fluid_witness :
    cfgNoFluid.fluidSDF = ConstantScalarField2 (-1) ∧ (-1 : ℚ) < 0 ∧
      (Solve cfgNoFluid pZero).uData 1 0 = (ConstrainVelocity cfgNoFluid).uData 1 0 :=
  ⟨rfl, by norm_num,
   (solve_no_fluid_returns_constrained_input cfgNoFluid pZero (-1) rfl
      (by norm_num)).1 1 0⟩

/-- C5: a precondition violation — output shape differing from the input
shape, non-positive time step, or non-positive grid spacing — makes `Solve`
report failure and leave the output grid exactly as it was handed in: no
partial mutation happens. -/
theorem solve_rejects_invalid_input_without_mutation (cfg : SolveConfig)
    (out0 : FaceCenteredGrid2) (p : Nat → Nat → ℚ)
    (h : HasSameShape cfg.grid.shape out0.shape = false ∨ cfg.dt ≤ 0 ∨
      cfg.grid.gridSpacing.x ≤ 0 ∨ cfg.grid.gridSpacing.y ≤ 0) :
    SolveInPlace cfg out0 p = (out0, false) := by
  rw [SolveInPlace, if_neg]
  intro hv
  obtain ⟨hv1, hv2, hv3, hv4⟩ := hv
  rcases h with h | h | h | h
  · rw [h] at hv1
    exact Bool.false_ne_true hv1
  · exact absurd hv2 (not_lt.mpr h)
  · exact absurd hv3 (not_lt.mpr h)
  · exact absurd hv4 (not_lt.mpr h)

/-- Closed instance of `solve_rejects_invalid_input_without_mutation`:
passing a 2×1 output grid for a 1×1 input is rejected and the output grid
comes back unmodified. -/
theorem solve_rejects_invalid_input_witness :
    HasSameShape cfgNoFluid.grid.shape gridTwoByOne.shape = false ∧
      SolveInPlace cfgNoFluid gridTwoByOne pZero = (gridTwoByOne, false) :=
  ⟨by decide,
   solve_rejects_invalid_input_without_mutation cfgNoFluid gridTwoByOne pZero
     (Or.inl (by decide))⟩

/-- C6: `Solve` mutates only the grid object its output reference points
to — every other grid on the heap, the input grid included (when not
aliased with the output), is unchanged when the call returns; the boundary
fields are read-only values of the call. -/
theorem solve_mutates_only_output (heap : Nat → FaceCenteredGrid2)
    (inRef outRef : Nat) (dt : ℚ) (bsdf : ScalarField2) (bv : VectorField2)
    (fsdf : ScalarField2) (p : Nat → Nat → ℚ) (r : Nat) (hr : r ≠ outRef) :
    solveHeap heap inRef outRef dt bsdf bv fsdf p r = heap r := by
  rw [solveHeap, Function.update_noteq hr]

/-- Closed instance of `solve_mutates_only_output`: with input reference 0
and output reference 1, the input grid at reference 0 is unchanged. -/
theorem solve_mutates_only_output_witness :
    solveHeap heapW 0 1 1 (ConstantScalarField2 1) (ConstantVectorField2 ⟨0, 0⟩)
      (ConstantScalarField2 1) pZero 0 = heapW 0 :=
  solve_mutates_only_output heapW 0 1 1 (ConstantScalarField2 1)
    (ConstantVectorField2 ⟨0, 0⟩) (ConstantScalarField2 1) pZero 0 (by decide)

/-- C7: the output of `Solve` always has the same shape as the input grid,
and `HasSameShape` computes exactly the conjunction of equal resolution,
equal grid spacing and equal origin. -/
theorem solve_output_has_same_shape (cfg : SolveConfig) (p : Nat → Nat → ℚ) :
    HasSameShape (Solve cfg p).shape cfg.grid.shape = true ∧
    (∀ a b : Grid2, HasSameShape a b = true ↔
      (a.resolution = b.resolution ∧ a.gridSpacing = b.gridSpacing ∧
        a.origin = b.origin)) := by
  constructor
  · have hsh : (Solve cfg p).shape = cfg.grid.shape := rfl
    rw [hsh, HasSameShape]
    simp
  · intro a b
    rw [HasSameShape]
    simp [Bool.and_eq_true, and_assoc]

theorem foldl_flatMap {α β σ : Type} (g : α → List β) (f : σ → β → σ)
    (l : List α) (s : σ) :
    List.foldl f s (l.flatMap g) =
      List.foldl (fun t a => List.foldl f t (g a)) s l := by
  induction l generalizing s with
  | nil => rfl
  | cons a l ih => rw [List.flatMap_cons, List.foldl_append, List.foldl_cons, ih]

theorem cellIndexList_succ (nx ny : Nat) :
    cellIndexList nx (ny + 1) =
      cellIndexList nx ny ++ (List.range nx).map (fun i => (i, ny)) := by
  unfold cellIndexList
  rw [List.range_succ, List.flatMap_append, List.flatMap_cons, List.flatMap_nil,
    List.append_nil]

theorem cellIndexList_length (nx ny : Nat) :
    (cellIndexList nx ny).length = nx * ny := by
  induction ny with
  | zero => rfl
  | succ n ih =>
    rw [cellIndexList_succ, List.length_append, ih, List.length_map,
      List.length_range, Nat.mul_succ]

theorem cellIndexList_getElem (nx ny i j : Nat) (hi : i < nx) (hj : j < ny) :
    (cellIndexList nx ny)[j * nx + i]? = some (i, j) := by
  induction ny with
  | zero => omega
  | succ n ih =>
    rw [cellIndexList_succ, List.getElem?_append]
    rcases Nat.lt_or_ge j n with h | h
    · have h1 : j * nx + i < (j + 1) * nx := by
        rw [Nat.succ_mul]
        omega
      have h2 : (j + 1) * nx ≤ n * nx := Nat.mul_le_mul_right nx (by omega)
      have h3 : j * nx + i < (cellIndexList nx n).length := by
        rw [cellIndexList_length, Nat.mul_comm nx n]
        exact lt_of_lt_of_le h1 h2
      rw [if_pos h3]
      exact ih h
    · have hj' : j = n := by omega
      subst hj'
      have h4 : ¬ j * nx + i < (cellIndexList nx j).length := by
        rw [cellIndexList_length, Nat.mul_comm nx j]
        omega
      rw [if_neg h4]
      have h5 : j * nx + i - (cellIndexList nx j).length = i := by
        rw [cellIndexList_length, Nat.mul_comm nx j]
        omega
      rw [h5, List.getElem?_map, List.getElem?_range hi]
      rfl

theorem cellIndexList_mem (nx ny i j : Nat) :
    (i, j) ∈ cellIndexList nx ny ↔ i < nx ∧ j < ny := by
  unfold cellIndexList
  simp only [List.mem_flatMap, List.mem_map, List.mem_range, Prod.mk.injEq]
  constructor
  · rintro ⟨b, hb, a, ha, hai, hbj⟩
    exact ⟨hai ▸ ha, hbj ▸ hb⟩
  · rintro ⟨hi, hj⟩
    exact ⟨j, hj, i, hi, rfl, rfl⟩

theorem cellIndexList_nodup (nx ny : Nat) : (cellIndexList nx ny).Nodup := by
  unfold cellIndexList
  rw [List.nodup_flatMap]
  constructor
  · intro j _
    exact List.Nodup.map (fun a b hab => congrArg Prod.fst hab)
      (List.nodup_range nx)
  · refine List.Pairwise.imp ?_ (List.pairwise_lt_range ny)
    intro a b hab x hxa hxb
    obtain ⟨ia, _, hia⟩ := List.mem_map.mp hxa
    obtain ⟨ib, _, hib⟩ := List.mem_map.mp hxb
    rw [← hia] at hib
    have hsnd : b = a := congrArg Prod.snd hib
    exact Nat.ne_of_lt hab hsnd.symm

theorem cellIndexList3_eq (nx ny nz : Nat) :
    cellIndexList3 nx ny nz =
      (List.range nz).flatMap
        (fun k => (cellIndexList nx ny).map (fun c => (c.1, c.2, k))) := by
  unfold cellIndexList3 cellIndexList
  simp only [List.map_flatMap, List.map_map, Function.comp]
  rfl

theorem cellIndexList3_succ (nx ny nz : Nat) :
    cellIndexList3 nx ny (nz + 1) =
      cellIndexList3 nx ny nz ++ (cellIndexList nx ny).map (fun c => (c.1, c.2, nz)) := by
  rw [cellIndexList3_eq, cellIndexList3_eq, List.range_succ, List.flatMap_append,
    List.flatMap_cons, List.flatMap_nil, List.append_nil]

theorem cellIndexList3_length (nx ny nz : Nat) :
    (cellIndexList3 nx ny nz).length = nx * ny * nz := by
  induction nz with
  | zero => rfl
  | succ n ih =>
    rw [cellIndexList3_succ, List.length_append, ih, List.length_map,
      cellIndexList_length, Nat.mul_succ]

theorem cellIndexList3_getElem (nx ny nz i j k : Nat) (hi : i < nx)
    (hj : j < ny) (hk : k < nz) :
    (cellIndexList3 nx ny nz)[k * (nx * ny) + (j * nx + i)]? = some (i, j, k) := by
  induction nz with
  | zero => omega
  | succ n ih =>
    rw [cellIndexList3_succ, List.getElem?_append]
    rcases Nat.lt_or_ge k n with h | h
    · have h1 : j * nx + i < nx * ny := by
        have ha : j * nx + i < (j + 1) * nx := by
          rw [Nat.succ_mul]
          omega
        have hb : (j + 1) * nx ≤ ny * nx := Nat.mul_le_mul_right nx (by omega)
        rw [Nat.mul_comm nx ny]
        exact lt_of_lt_of_le ha hb
      have h2 : k * (nx * ny) + (j * nx + i) < (k + 1) * (nx * ny) := by
        rw [Nat.succ_mul]
        omega
      have h3 : (k + 1) * (nx * ny) ≤ n * (nx * ny) :=
        Nat.mul_le_mul_right (nx * ny) (by omega)
      have h4 : k * (nx * ny) + (j * nx + i) < (cellIndexList3 nx ny n).length := by
        rw [cellIndexList3_length]
        calc k * (nx * ny) + (j * nx + i) < (k + 1) * (nx * ny) := h2
          _ ≤ n * (nx * ny) := h3
          _ = nx * ny * n := Nat.mul_comm n (nx * ny)
      rw [if_pos h4]
      exact ih h
    · have hk' : k = n := by omega
      subst hk'
      have hlen : (cellIndexList3 nx ny k).length = nx * ny * k :=
        cellIndexList3_length nx ny k
      have h4 : ¬ k * (nx * ny) + (j * nx + i) < (cellIndexList3 nx ny k).length := by
        rw [hlen, Nat.mul_comm (nx * ny) k]
        omega
      have h5 : k * (nx * ny) + (j * nx + i) - (cellIndexList3 nx ny k).length =
          j * nx + i := by
        rw [hlen, Nat.mul_comm (nx * ny) k]
        omega
      rw [if_neg h4, h5, List.getElem?_map, cellIndexList_getElem nx ny i j hi hj]
      rfl

theorem cellIndexList3_mem (nx ny nz i j k : Nat) :
    (i, j, k) ∈ cellIndexList3 nx ny nz ↔ i < nx ∧ j < ny ∧ k < nz := by
  rw [cellIndexList3_eq]
  simp only [List.mem_flatMap, List.mem_map, List.mem_range, Prod.mk.injEq]
  constructor
  · rintro ⟨c, hc, ⟨a, b⟩, hab, hai, hbj, hck⟩
    have := (cellIndexList_mem nx ny a b).mp hab
    exact ⟨hai ▸ this.1, hbj ▸ this.2, hck ▸ hc⟩
  · rintro ⟨hi, hj, hk⟩
    exact ⟨k, hk, (i, j), (cellIndexList_mem nx ny i j).mpr ⟨hi, hj⟩, rfl, rfl, rfl⟩

theorem cellIndexList3_nodup (nx ny nz : Nat) : (cellIndexList3 nx ny nz).Nodup := by
  rw [cellIndexList3_eq, List.nodup_flatMap]
  constructor
  · intro k _
    refine List.Nodup.map ?_ (cellIndexList_nodup nx ny)
    intro a b hab
    have hab2 : (a.1, a.2, k) = (b.1, b.2, k) := hab
    injection hab2 with h1 hrest
    injection hrest with h2 h3
    exact Prod.ext_iff.mpr ⟨h1, h2⟩
  · refine List.Pairwise.imp ?_ (List.pairwise_lt_range nz)
    intro a b hab x hxa hxb
    obtain ⟨ca, _, hca⟩ := List.mem_map.mp hxa
    obtain ⟨cb, _, hcb⟩ := List.mem_map.mp hxb
    rw [← hca] at hcb
    have hcb2 : (cb.1, cb.2, b) = (ca.1, ca.2, a) := hcb
    injection hcb2 with h1 hrest
    injection hrest with h2 h3
    exact Nat.ne_of_lt hab h3.symm

theorem nodup_count_eq_one {α : Type} [BEq α] [LawfulBEq α] {a : α}
    {l : List α} (hl : l.Nodup) (ha : a ∈ l) : l.count a = 1 := by
  induction l with
  | nil => cases ha
  | cons b l ih =>
    rcases List.mem_cons.mp ha with h | h
    · subst h
      have h0 : l.count a = 0 :=
        List.count_eq_zero.mpr (List.nodup_cons.mp hl).1
      simp [List.count_cons, h0]
    · have hab : a ≠ b := fun he => (List.nodup_cons.mp hl).1 (he ▸ h)
      have h1 := ih (List.nodup_cons.mp hl).2 h
      simp [List.count_cons, h1, hab]

/-- C9: the per-cell iteration primitive invokes the callback serially,
once per cell index (each in-range index occurs exactly once in the
traversal sequence), and a state-accumulating callback observes exactly the
sequence in which `i` varies fastest and the last axis index slowest: cell
`(i, j)` is visited at position `j*nx + i`, and cell `(i, j, k)` at
position `k*nx*ny + j*nx + i`. -/
theorem forEachCellIndex_serial_order {σ σ3 : Type} (res : Size2)
    (f : σ → Nat × Nat → σ) (init : σ) (res3 : Size3)
    (f3 : σ3 → Nat × Nat × Nat → σ3) (init3 : σ3) :
    (ForEachCellIndex res f init = (cellIndexList res.x res.y).foldl f init) ∧
    ((cellIndexList res.x res.y).length = res.x * res.y) ∧
    (∀ i j, i < res.x → j < res.y →
      (cellIndexList res.x res.y).count (i, j) = 1 ∧
      (cellIndexList res.x res.y)[j * res.x + i]? = some (i, j)) ∧
    (ForEachCellIndex3 res3 f3 init3 =
      (cellIndexList3 res3.x res3.y res3.z).foldl f3 init3) ∧
    ((cellIndexList3 res3.x res3.y res3.z).length = res3.x * res3.y * res3.z) ∧
    (∀ i j k, i < res3.x → j < res3.y → k < res3.z →
      (cellIndexList3 res3.x res3.y res3.z).count (i, j, k) = 1 ∧
      (cellIndexList3 res3.x res3.y res3.z)[k * (res3.x * res3.y) + (j * res3.x + i)]? =
        some (i, j, k)) := by
  refine ⟨?_, cellIndexList_length res.x res.y, ?_, ?_,
    cellIndexList3_length res3.x res3.y res3.z, ?_⟩
  · rw [ForEachCellIndex, cellIndexList, foldl_flatMap]
    simp only [List.foldl_map]
  · intro i j hi hj
    exact ⟨nodup_count_eq_one (cellIndexList_nodup res.x res.y)
        ((cellIndexList_mem res.x res.y i j).mpr ⟨hi, hj⟩),
      cellIndexList_getElem res.x res.y i j hi hj⟩
  · rw [ForEachCellIndex3, cellIndexList3, foldl_flatMap]
    simp only [foldl_flatMap, List.foldl_map]
  · intro i j k hi hj hk
    exact ⟨nodup_count_eq_one (cellIndexList3_nodup res3.x res3.y res3.z)
        ((cellIndexList3_mem res3.x res3.y res3.z i j k).mpr ⟨hi, hj, hk⟩),
      cellIndexList3_getElem res3.x res3.y res3.z i j k hi hj hk⟩

/-- C10: the Python `Point2UI`/`Point3UI` constructors default every
omitted coordinate to 0 (no arguments gives the all-zero point), and the
bound equality operator first converts its right-hand object to a point of
the same type and then returns true exactly when all components are
equal. -/
theorem point_defaults_and_equality :
    (point2UIInit none none = ⟨0, 0⟩) ∧
    (∀ x, point2UIInit (some x) none = ⟨x, 0⟩) ∧
    (∀ x y, point2UIInit (some x) (some y) = ⟨x, y⟩) ∧
    (∀ a obj, point2UIEqPy a obj = true ↔
      (a.x = (ObjectToPoint2UI obj).x ∧ a.y = (ObjectToPoint2UI obj).y)) ∧
    (point3UIInit none none none = ⟨0, 0, 0⟩) ∧
    (∀ x, point3UIInit (some x) none none = ⟨x, 0, 0⟩) ∧
    (∀ x y z, point3UIInit (some x) (some y) (some z) = ⟨x, y, z⟩) ∧
    (∀ a obj, point3UIEqPy a obj = true ↔
      (a.x = (ObjectToPoint3UI obj).x ∧ a.y = (ObjectToPoint3UI obj).y ∧
        a.z = (ObjectToPoint3UI obj).z)) := by
  refine ⟨rfl, fun x => rfl, fun x y => rfl, ?_, rfl, fun x => rfl,
    fun x y z => rfl, ?_⟩
  · intro a obj
    rw [point2UIEqPy, decide_eq_true_eq]
    constructor
    · intro h
      rw [h]
      exact ⟨rfl, rfl⟩
    · rintro ⟨h1, h2⟩
      cases a
      rw [Point2UI.mk.injEq]
      exact ⟨h1, h2⟩
  · intro a obj
    rw [point3UIEqPy, decide_eq_true_eq]
    constructor
    · intro h
      rw [h]
      exact ⟨rfl, rfl, rfl⟩
    · rintro ⟨h1, h2, h3⟩
      cases a
      rw [Point3UI.mk.injEq]
      exact ⟨h1, h2, h3⟩

theorem compressedIndex_of_mem {l : List (Nat × Nat)} {c : Nat × Nat}
    (f : Nat × Nat → ℚ) (hc : c ∈ l) :
    ∃ k, compressedIndex l c = some k ∧ (l.map f).getD k 0 = f c := by
  induction l with
  | nil => cases hc
  | cons d l ih =>
    by_cases hd : d = c
    · refine ⟨0, ?_, ?_⟩
      · rw [compressedIndex, if_pos hd]
      · rw [List.map_cons, List.getD_cons_zero, hd]
    · have hcl : c ∈ l := by
        rcases List.mem_cons.mp hc with h | h
        · exact absurd h.symm hd
        · exact h
      obtain ⟨k, hk1, hk2⟩ := ih hcl
      refine ⟨k + 1, ?_, ?_⟩
      · rw [compressedIndex, if_neg hd, hk1]
        rfl
      · rw [List.map_cons, List.getD_cons_succ, hk2]

theorem fluidIndices_mem (cfg : SolveConfig) (i j : Nat) :
    (i, j) ∈ fluidIndices cfg ↔
      i < cfg.grid.resolution.x ∧ j < cfg.grid.resolution.y ∧
        buildMarker cfg i j = Marker.FLUID := by
  rw [fluidIndices, List.mem_filter, cellIndexList_mem, decide_eq_true_eq,
    and_assoc]

theorem compressedLookup_map (cfg : SolveConfig) (p : Nat → Nat → ℚ)
    (i j : Nat) (hc : (i, j) ∈ fluidIndices cfg) :
    compressedLookup cfg ((fluidIndices cfg).map (fun d => p d.1 d.2)) (i, j) =
      p i j := by
  obtain ⟨k, hk1, hk2⟩ := compressedIndex_of_mem (fun d => p d.1 d.2) hc
  rw [compressedLookup, hk1]
  exact hk2

theorem pressureAt_compressed (cfg : SolveConfig) (p : Nat → Nat → ℚ)
    (i j : Nat) (hi : i < cfg.grid.resolution.x) (hj : j < cfg.grid.resolution.y) :
    pressureAt cfg
        (fun a b => compressedLookup cfg ((fluidIndices cfg).map (fun d => p d.1 d.2)) (a, b))
        i j = pressureAt cfg p i j := by
  by_cases hf : buildMarker cfg i j = Marker.FLUID
  · rw [pressureAt, pressureAt, if_pos hf, if_pos hf]
    exact compressedLookup_map cfg p i j ((fluidIndices_mem cfg i j).mpr ⟨hi, hj, hf⟩)
  · rw [pressureAt, pressureAt, if_neg hf, if_neg hf]

theorem rowApply_compressed (cfg : SolveConfig) (p : Nat → Nat → ℚ)
    (i j : Nat) (hi : i < cfg.grid.resolution.x) (hj : j < cfg.grid.resolution.y)
    (hf : buildMarker cfg i j = Marker.FLUID) :
    rowApply cfg
        (fun a b => compressedLookup cfg ((fluidIndices cfg).map (fun d => p d.1 d.2)) (a, b))
        i j = rowApply cfg p i j := by
  have hc : compressedLookup cfg ((fluidIndices cfg).map (fun d => p d.1 d.2)) (i, j) =
      p i j :=
    compressedLookup_map cfg p i j ((fluidIndices_mem cfg i j).mpr ⟨hi, hj, hf⟩)
  rw [rowApply, rowApply]
  have hR : (if activeRight cfg i j then
      (pressureAt cfg (fun a b => compressedLookup cfg ((fluidIndices cfg).map (fun d => p d.1 d.2)) (a, b)) (i + 1) j -
        compressedLookup cfg ((fluidIndices cfg).map (fun d => p d.1 d.2)) (i, j)) /
          cfg.grid.gridSpacing.x ^ 2 else 0) =
      (if activeRight cfg i j then
        (pressureAt cfg p (i + 1) j - p i j) / cfg.grid.gridSpacing.x ^ 2 else 0) := by
    by_cases h : activeRight cfg i j
    · have hb : i + 1 < cfg.grid.resolution.x := h.1
      rw [if_pos h, if_pos h, hc, pressureAt_compressed cfg p (i + 1) j hb hj]
    · rw [if_neg h, if_neg h]
  have hL : (if activeLeft cfg i j then
      (pressureAt cfg (fun a b => compressedLookup cfg ((fluidIndices cfg).map (fun d => p d.1 d.2)) (a, b)) (i - 1) j -
        compressedLookup cfg ((fluidIndices cfg).map (fun d => p d.1 d.2)) (i, j)) /
          cfg.grid.gridSpacing.x ^ 2 else 0) =
      (if activeLeft cfg i j then
        (pressureAt cfg p (i - 1) j - p i j) / cfg.grid.gridSpacing.x ^ 2 else 0) := by
    by_cases h : activeLeft cfg i j
    · have hb : i - 1 < cfg.grid.resolution.x := by omega
      rw [if_pos h, if_pos h, hc, pressureAt_compressed cfg p (i - 1) j hb hj]
    · rw [if_neg h, if_neg h]
  have hU : (if activeUp cfg i j then
      (pressureAt cfg (fun a b => compressedLookup cfg ((fluidIndices cfg).map (fun d => p d.1 d.2)) (a, b)) i (j + 1) -
        compressedLookup cfg ((fluidIndices cfg).map (fun d => p d.1 d.2)) (i, j)) /
          cfg.grid.gridSpacing.y ^ 2 else 0) =
      (if activeUp cfg i j then
        (pressureAt cfg p i (j + 1) - p i j) / cfg.grid.gridSpacing.y ^ 2 else 0) := by
    by_cases h : activeUp cfg i j
    · have hb : j + 1 < cfg.grid.resolution.y := h.1
      rw [if_pos h, if_pos h, hc, pressureAt_compressed cfg p i (j + 1) hi hb]
    · rw [if_neg h, if_neg h]
  have hD : (if activeDown cfg i j then
      (pressureAt cfg (fun a b => compressedLookup cfg ((fluidIndices cfg).map (fun d => p d.1 d.2)) (a, b)) i (j - 1) -
        compressedLookup cfg ((fluidIndices cfg).map (fun d => p d.1 d.2)) (i, j)) /
          cfg.grid.gridSpacing.y ^ 2 else 0) =
      (if activeDown cfg i j then
        (pressureAt cfg p i (j - 1) - p i j) / cfg.grid.gridSpacing.y ^ 2 else 0) := by
    by_cases h : activeDown cfg i j
    · have hb : j - 1 < cfg.grid.resolution.y := by omega
      rw [if_pos h, if_pos h, hc, pressureAt_compressed cfg p i (j - 1) hi hb]
    · rw [if_neg h, if_neg h]
  rw [hR, hL, hU, hD]

theorem uCorrection_compressed (cfg : SolveConfig) (p : Nat → Nat → ℚ) (i j : Nat) :
    uCorrection cfg
        (fun a b => compressedLookup cfg ((fluidIndices cfg).map (fun d => p d.1 d.2)) (a, b))
        i j = uCorrection cfg p i j := by
  rw [uCorrection, uCorrection]
  by_cases h : 1 ≤ i ∧ i < cfg.grid.resolution.x ∧ j < cfg.grid.resolution.y ∧
      ¬ solidUFace cfg i j ∧
        projectable (buildMarker cfg (i - 1) j) (buildMarker cfg i j)
  · have hi1 : i - 1 < cfg.grid.resolution.x := by omega
    rw [if_pos h, if_pos h, pressureAt_compressed cfg p i j h.2.1 h.2.2.1,
      pressureAt_compressed cfg p (i - 1) j hi1 h.2.2.1]
  · rw [if_neg h, if_neg h]

theorem vCorrection_compressed (cfg : SolveConfig) (p : Nat → Nat → ℚ) (i j : Nat) :
    vCorrection cfg
        (fun a b => compressedLookup cfg ((fluidIndices cfg).map (fun d => p d.1 d.2)) (a, b))
        i j = vCorrection cfg p i j := by
  rw [vCorrection, vCorrection]
  by_cases h : 1 ≤ j ∧ j < cfg.grid.resolution.y ∧ i < cfg.grid.resolution.x ∧
      ¬ solidVFace cfg i j ∧
        projectable (buildMarker cfg i (j - 1)) (buildMarker cfg i j)
  · have hj1 : j - 1 < cfg.grid.resolution.y := by omega
    rw [if_pos h, if_pos h, pressureAt_compressed cfg p i j h.2.2.1 h.2.1,
      pressureAt_compressed cfg p i (j - 1) h.2.2.1 hj1]
  · rw [if_neg h, if_neg h]

/-- C8: exact-solution correspondence between the dense and the compressed
system representations.  A dense solution `p` restricts (by renumbering the
FLUID cells) to a compressed solution whose looked-up pressure agrees with
`p` at every FLUID cell, and whose projected output velocities agree with
the dense run on every face; conversely, every compressed solution extends
through the lookup to a dense solution.  Hence the two representations
produce the same pressure (on FLUID cells) and the same output velocity
field. -/
theorem solve_compressed_dense_equivalent (cfg : SolveConfig)
    (p : Nat → Nat → ℚ) (hp : SolvesPressureSystem cfg p) :
    SolvesCompressed cfg ((fluidIndices cfg).map (fun d => p d.1 d.2)) ∧
    (∀ x, SolvesCompressed cfg x →
      SolvesPressureSystem cfg (fun i j => compressedLookup cfg x (i, j))) ∧
    (∀ i j, i < cfg.grid.resolution.x → j < cfg.grid.resolution.y →
      buildMarker cfg i j = Marker.FLUID →
      compressedLookup cfg ((fluidIndices cfg).map (fun d => p d.1 d.2)) (i, j) = p i j) ∧
    (∀ i j,
      (Solve cfg (fun a b =>
        compressedLookup cfg ((fluidIndices cfg).map (fun d => p d.1 d.2)) (a, b))).uData i j =
        (Solve cfg p).uData i j) ∧
    (∀ i j,
      (Solve cfg (fun a b =>
        compressedLookup cfg ((fluidIndices cfg).map (fun d => p d.1 d.2)) (a, b))).vData i j =
        (Solve cfg p).vData i j) := by
  refine ⟨⟨by rw [List.length_map], ?_⟩, ?_, ?_, ?_, ?_⟩
  · intro n hn
    have hmem : (fluidIndices cfg).get ⟨n, hn⟩ ∈ fluidIndices cfg :=
      List.get_mem (fluidIndices cfg) n hn
    obtain ⟨hi, hj, hf⟩ :=
      (fluidIndices_mem cfg ((fluidIndices cfg).get ⟨n, hn⟩).1
        ((fluidIndices cfg).get ⟨n, hn⟩).2).mp hmem
    rw [rowApply_compressed cfg p _ _ hi hj hf]
    exact hp _ hi _ hj hf
  · intro x hx i hi j hj hf
    obtain ⟨⟨k, hk⟩, hget⟩ :=
      List.mem_iff_get.mp ((fluidIndices_mem cfg i j).mpr ⟨hi, hj, hf⟩)
    have hrow := hx.2 k hk
    rw [hget] at hrow
    exact hrow
  · intro i j hi hj hf
    exact compressedLookup_map cfg p i j ((fluidIndices_mem cfg i j).mpr ⟨hi, hj, hf⟩)
  · intro i j
    have h1 : (Solve cfg (fun a b =>
        compressedLookup cfg ((fluidIndices cfg).map (fun d => p d.1 d.2)) (a, b))).uData i j =
        (ConstrainVelocity cfg).uData i j -
          uCorrection cfg (fun a b =>
            compressedLookup cfg ((fluidIndices cfg).map (fun d => p d.1 d.2)) (a, b)) i j := rfl
    have h2 : (Solve cfg p).uData i j =
        (ConstrainVelocity cfg).uData i j - uCorrection cfg p i j := rfl
    rw [h1, h2, uCorrection_compressed]
  · intro i j
    have h1 : (Solve cfg (fun a b =>
        compressedLookup cfg ((fluidIndices cfg).map (fun d => p d.1 d.2)) (a, b))).vData i j =
        (ConstrainVelocity cfg).vData i j -
          vCorrection cfg (fun a b =>
            compressedLookup cfg ((fluidIndices cfg).map (fun d => p d.1 d.2)) (a, b)) i j := rfl
    have h2 : (Solve cfg p).vData i j =
        (ConstrainVelocity cfg).vData i j - vCorrection cfg p i j := rfl
    rw [h1, h2, vCorrection_compressed]

/-- Closed instance of `solve_compressed_dense_equivalent` on the 2×1
FLUID/AIR configuration: the restriction of the dense solution solves the
compressed system and the two runs agree on the interior face. -/
theorem solve_compressed_dense_witness :
    SolvesPressureSystem cfgProjW pProjW ∧
      SolvesCompressed cfgProjW ((fluidIndices cfgProjW).map (fun d => pProjW d.1 d.2)) ∧
      (Solve cfgProjW (fun a b =>
        compressedLookup cfgProjW ((fluidIndices cfgProjW).map (fun d => pProjW d.1 d.2)) (a, b))).uData 1 0 =
        (Solve cfgProjW pProjW).uData 1 0 :=
  ⟨cfgProjW_system,
   (solve_compressed_dense_equivalent cfgProjW pProjW cfgProjW_system).1,
   (solve_compressed_dense_equivalent cfgProjW pProjW cfgProjW_system).2.2.2.1 1 0⟩

end CubbyFlow
